import Mathlib

/-!
Shallow embedding of the LLM-Service-Factory repository
(factory cache, provider services, retry wrapper, token tracker)
and proofs of the specification claims about it.
-/

/-! ## utils/retry_logic.py -/

/-- Outcome of `retry_request`: either the wrapped function's result, a single
`RuntimeError(f"API request failed after {retries} retries: {e}")` carrying the
configured retry count and the last underlying cause, or `None` (the Python
function falls through the `for` loop without returning when `range(retries)`
is empty). -/
inductive RetryResult (ε α : Type) where
  | success : α → RetryResult ε α
  | failure : Int → ε → RetryResult ε α
  | noResult : RetryResult ε α
deriving DecidableEq, Repr

/-- The `for attempt in range(retries)` loop of `retry_request`, with the
callee modelled as a map from the attempt index to that invocation's outcome.
`remaining` counts the loop iterations still to run; `attempt == retries - 1`
holds exactly when `remaining = 1`.  Returns the result together with the
number of times `func` was invoked. -/
def retryGo (func : Nat → Except ε α) (retries : Int) :
    Nat → Nat → RetryResult ε α × Nat
  | _, 0 => (.noResult, 0)
  | attempt, r + 1 =>
    match func attempt with
    | .ok a => (.success a, 1)
    | .error e =>
      if r = 0 then (.failure retries e, 1)
      else
        let p := retryGo func retries (attempt + 1) r
        (p.1, p.2 + 1)

/-- Embeds `retry_request(func, retries=3, wait_time=0.5)`.  The sleep between
attempts has no effect on the returned value and is not modelled.  A
non-positive `retries` makes `range(retries)` empty, so the loop body never
runs and the function returns `None`. -/
def retry_request (func : Nat → Except ε α) (retries : Int := 3) :
    RetryResult ε α × Nat :=
  retryGo func retries 0 retries.toNat

example :
    retry_request (fun i => if i < 2 then Except.error i else Except.ok "done") 3
      = (.success "done", 3) := by decide

example :
    retry_request (fun i => (Except.error i : Except Nat String)) 3
      = (.failure 3 2, 3) := by decide

example :
    retry_request (fun i => (Except.error i : Except Nat String)) 0
      = (.noResult, 0) := by decide

/-- Helper: when every attempt in the window fails, the loop raises the
aggregated failure carrying the configured retry count and the last cause,
after exactly `r` invocations. -/
theorem retryGo_all_fail (func : Nat → Except ε α) (retries : Int)
    (r : Nat) : ∀ (attempt : Nat), 0 < r →
      (∀ i, attempt ≤ i → i < attempt + r → ∃ e, func i = Except.error e) →
      ∃ e, func (attempt + r - 1) = Except.error e ∧
        retryGo func retries attempt r = (.failure retries e, r) := by
  induction r with
  | zero => intro attempt h; exact absurd h (by omega)
  | succ r ih =>
    intro attempt _ hfail
    obtain ⟨e0, he0⟩ := hfail attempt (le_refl _) (by omega)
    by_cases hr : r = 0
    · subst hr
      exact ⟨e0, by simpa using he0, by simp [retryGo, he0]⟩
    · obtain ⟨e, he, hgo⟩ := ih (attempt + 1) (Nat.pos_of_ne_zero hr)
        (fun i h1 h2 => hfail i (by omega) (by omega))
      have harith : attempt + 1 + r - 1 = attempt + (r + 1) - 1 := by omega
      rw [harith] at he
      exact ⟨e, he, by simp [retryGo, he0, hr, hgo]⟩

/-- C4: for every operation and every positive retry count, if the operation
fails on all configured attempts, `retry_request` raises exactly one
aggregated error that references the configured retry count and carries the
last underlying cause, and the operation is invoked exactly `retries` times. -/
theorem retry_request_all_attempts_fail (func : Nat → Except ε α)
    (retries : Int) (hpos : 0 < retries)
    (hfail : ∀ i, i < retries.toNat → ∃ e, func i = Except.error e) :
    ∃ e, func (retries.toNat - 1) = Except.error e ∧
      retry_request func retries = (.failure retries e, retries.toNat) := by
  have h0 : 0 < retries.toNat := by omega
  obtain ⟨e, he, hgo⟩ := retryGo_all_fail func retries retries.toNat 0 h0
    (fun i _ h2 => hfail i (by omega))
  exact ⟨e, by simpa using he, by simpa [retry_request] using hgo⟩

/-- Witness for C4 at a concrete always-failing operation and retries = 3. -/
theorem retry_request_all_attempts_fail_witness :
    ∃ e, (fun _ => (Except.error 5 : Except Nat String)) ((3 : Int).toNat - 1)
        = Except.error e ∧
      retry_request (fun _ => (Except.error 5 : Except Nat String)) 3
        = (.failure 3 e, (3 : Int).toNat) :=
  retry_request_all_attempts_fail _ 3 (by decide) (fun _ _ => ⟨5, rfl⟩)

/-- Helper: the first successful attempt short-circuits the loop; the
operation is invoked once per failed attempt plus the successful one. -/
theorem retryGo_success (func : Nat → Except ε α) (retries : Int) (a : α)
    (r : Nat) : ∀ (attempt j : Nat), attempt ≤ j → j < attempt + r →
      func j = Except.ok a →
      (∀ i, attempt ≤ i → i < j → ∃ e, func i = Except.error e) →
      retryGo func retries attempt r = (.success a, j - attempt + 1) := by
  induction r with
  | zero => intro attempt j h1 h2; exact absurd h2 (by omega)
  | succ r ih =>
    intro attempt j h1 h2 hok hfail
    by_cases hj : attempt = j
    · subst hj
      simp [retryGo, hok]
    · obtain ⟨e0, he0⟩ := hfail attempt (le_refl _) (by omega)
      have hr : r ≠ 0 := by omega
      have hrec := ih (attempt + 1) j (by omega) (by omega) hok
        (fun i hi1 hi2 => hfail i (by omega) hi2)
      simp [retryGo, he0, hr, hrec, Prod.ext_iff]
      omega

/-- C5: if the operation succeeds on attempt `j` (0-based) after failing on
every earlier attempt, and `j` is within the configured attempt window, then
`retry_request` returns that attempt's result having invoked the operation
exactly `j + 1` times — in particular an operation failing twice then
succeeding on the third attempt under the default 3 retries yields the third
result after exactly three invocations, and any successful attempt
short-circuits immediately. -/
theorem retry_request_success_short_circuits (func : Nat → Except ε α)
    (retries : Int) (j : Nat) (a : α)
    (hj : j < retries.toNat) (hok : func j = Except.ok a)
    (hfail : ∀ i, i < j → ∃ e, func i = Except.error e) :
    retry_request func retries = (.success a, j + 1) := by
  have hgo := retryGo_success func retries a retries.toNat 0 j (by omega)
    (by omega) hok (fun i _ hi => hfail i hi)
  simpa [retry_request] using hgo

/-- Witness for C5: fails on attempts 0 and 1, succeeds on attempt 2, with
the default retry count 3; three invocations, third result returned. -/
theorem retry_request_success_short_circuits_witness :
    retry_request (fun i => if i < 2 then Except.error i else Except.ok "done") 3
      = (.success "done", 2 + 1) :=
  retry_request_success_short_circuits _ 3 2 "done" (by decide) rfl
    (fun i hi => ⟨i, by simp [hi]⟩)

/-- C10: calling `retry_request` with a non-positive retry count returns
`None` without invoking the operation and without raising: `range(retries)`
is empty, the loop body never runs, and the Python function falls through. -/
theorem retry_request_nonpositive_retries (func : Nat → Except ε α)
    (retries : Int) (h : retries ≤ 0) :
    retry_request func retries = (.noResult, 0) := by
  have ht : retries.toNat = 0 := by omega
  simp [retry_request, ht, retryGo]

/-- Witness for C10 at retries = -2. -/
theorem retry_request_nonpositive_retries_witness :
    retry_request (fun _ => (Except.error 0 : Except Nat Nat)) (-2)
      = (.noResult, 0) :=
  retry_request_nonpositive_retries _ (-2) (by decide)

/-! ## utils/token_tracker.py -/

/-- Per-model entry of the persisted usage document:
`{"prompt_tokens": int, "completion_tokens": int}`. -/
structure Usage where
  prompt_tokens : Nat
  completion_tokens : Nat
deriving DecidableEq, Repr

/-- Per-token dollar rates of one model, exact rationals in place of the
Python floats. -/
structure CostRate where
  prompt_token_cost : ℚ
  completion_token_cost : ℚ
deriving DecidableEq, Repr

/-- Embeds the `TokenTracker.COST_RATES` class dictionary (the three seeded
models).  `update_tokens_usage` inserts a `{0, 0}` entry for any other model;
that mutation is behaviorally the `getD ⟨0, 0⟩` default of `costRateOf`
because the inserted rates are zero and stay zero. -/
def COST_RATES (model_name : String) : Option CostRate :=
  if model_name = "gpt-4o" then
    some ⟨0.0045 / 1000, 0.0135 / 1000⟩
  else if model_name = "gpt-35-turbo" then
    some ⟨0.0018 / 1000, 0.0018 / 1000⟩
  else if model_name = "gpt-35-turbo-16k" then
    some ⟨0.0027 / 1000, 0.0036 / 1000⟩
  else none

/-- Effective cost rate used by `update_tokens_usage`: the configured rate,
or zero for unknown models. -/
def costRateOf (model_name : String) : CostRate :=
  (COST_RATES model_name).getD ⟨0, 0⟩

/-- The persisted `tokens_usage.json` document: the per-model entries plus
the `"overall_cost"` key, modelled as separate fields of one record. -/
structure UsageDoc where
  entries : List (String × Usage)
  overall_cost : ℚ
deriving DecidableEq, Repr

/-- The document before any update: `tokens_usage = {}` and
`tokens_usage.get("overall_cost", 0) = 0`. -/
def emptyUsageDoc : UsageDoc := ⟨[], 0⟩

/-- Dictionary update of the per-model entries:
`setdefault(model_name, {"prompt_tokens": 0, "completion_tokens": 0})`
followed by `+=` on both counters.  The first entry with the given key is
updated in place; a missing key is inserted. -/
def updateEntries : List (String × Usage) → String → Nat → Nat →
    List (String × Usage)
  | [], m, p, c => [(m, ⟨p, c⟩)]
  | (k, u) :: rest, m, p, c =>
    if k = m then
      (k, ⟨u.prompt_tokens + p, u.completion_tokens + c⟩) :: rest
    else
      (k, u) :: updateEntries rest m p c

/-- Embeds one call of `TokenTracker.update_tokens_usage(model_name,
prompt_tokens, completion_tokens)` as the pure read-modify-write on the
persisted document (the file I/O and the lock around it carry no data
beyond the document itself). -/
def update_tokens_usage (doc : UsageDoc) (model_name : String)
    (prompt_tokens completion_tokens : Nat) : UsageDoc :=
  let entries := updateEntries doc.entries model_name prompt_tokens
    completion_tokens
  let rate := costRateOf model_name
  let prompt_cost := (prompt_tokens : ℚ) * rate.prompt_token_cost
  let completion_cost := (completion_tokens : ℚ) * rate.completion_token_cost
  ⟨entries, doc.overall_cost + prompt_cost + completion_cost⟩

/-- Dictionary lookup of the first entry with the given key. -/
def lookupUsage : List (String × Usage) → String → Option Usage
  | [], _ => none
  | (k, u) :: rest, m => if k = m then some u else lookupUsage rest m

/-- Accumulated prompt tokens recorded for a model (0 when absent). -/
def promptTotal (doc : UsageDoc) (m : String) : Nat :=
  ((lookupUsage doc.entries m).getD ⟨0, 0⟩).prompt_tokens

/-- Accumulated completion tokens recorded for a model (0 when absent). -/
def completionTotal (doc : UsageDoc) (m : String) : Nat :=
  ((lookupUsage doc.entries m).getD ⟨0, 0⟩).completion_tokens

/-- Helper: folding updates for one model over a document holding exactly
that model's entry accumulates the token sums and the rate-weighted cost. -/
theorem foldl_update_singleton (model : String) (us : List (Nat × Nat)) :
    ∀ (a b : Nat) (q : ℚ),
      us.foldl (fun d pc => update_tokens_usage d model pc.1 pc.2)
        ⟨[(model, ⟨a, b⟩)], q⟩ =
      ⟨[(model, ⟨a + (us.map Prod.fst).sum, b + (us.map Prod.snd).sum⟩)],
        q + ((us.map Prod.fst).sum : ℚ) * (costRateOf model).prompt_token_cost
          + ((us.map Prod.snd).sum : ℚ) *
            (costRateOf model).completion_token_cost⟩ := by
  induction us with
  | nil => intro a b q; simp
  | cons pc rest ih =>
    intro a b q
    rw [List.foldl_cons]
    have hstep : update_tokens_usage ⟨[(model, ⟨a, b⟩)], q⟩ model pc.1 pc.2 =
        ⟨[(model, ⟨a + pc.1, b + pc.2⟩)],
          q + (pc.1 : ℚ) * (costRateOf model).prompt_token_cost
            + (pc.2 : ℚ) * (costRateOf model).completion_token_cost⟩ := by
      simp [update_tokens_usage, updateEntries]
    rw [hstep, ih]
    refine congrArg₂ UsageDoc.mk ?_ ?_
    · simp [Nat.add_assoc]
    · simp only [List.map_cons, List.sum_cons]
      push_cast
      ring

/-- C6: starting from the empty persisted document, any sequence of
`update_tokens_usage` calls for one model leaves the document holding the
sums of all prompt-token and completion-token increments for that model, and
an `overall_cost` equal to the configured per-token rates applied to the
cumulative totals; a model absent from `COST_RATES` contributes zero cost. -/
theorem update_tokens_usage_cumulative (model : String)
    (us : List (Nat × Nat)) :
    promptTotal (us.foldl (fun d pc => update_tokens_usage d model pc.1 pc.2)
        emptyUsageDoc) model = (us.map Prod.fst).sum ∧
    completionTotal (us.foldl
        (fun d pc => update_tokens_usage d model pc.1 pc.2)
        emptyUsageDoc) model = (us.map Prod.snd).sum ∧
    (us.foldl (fun d pc => update_tokens_usage d model pc.1 pc.2)
        emptyUsageDoc).overall_cost =
      ((us.map Prod.fst).sum : ℚ) * (costRateOf model).prompt_token_cost +
      ((us.map Prod.snd).sum : ℚ) *
        (costRateOf model).completion_token_cost ∧
    (COST_RATES model = none →
      (us.foldl (fun d pc => update_tokens_usage d model pc.1 pc.2)
        emptyUsageDoc).overall_cost = 0) := by
  cases us with
  | nil => simp [promptTotal, completionTotal, emptyUsageDoc, lookupUsage]
  | cons pc rest =>
    have hstep : update_tokens_usage emptyUsageDoc model pc.1 pc.2 =
        ⟨[(model, ⟨pc.1, pc.2⟩)],
          0 + (pc.1 : ℚ) * (costRateOf model).prompt_token_cost
            + (pc.2 : ℚ) * (costRateOf model).completion_token_cost⟩ := by
      simp [update_tokens_usage, updateEntries, emptyUsageDoc]
    rw [List.foldl_cons, hstep, foldl_update_singleton]
    refine ⟨?_, ?_, ?_, ?_⟩
    · simp [promptTotal, lookupUsage]
    · simp [completionTotal, lookupUsage]
    · simp only [List.map_cons, List.sum_cons]
      push_cast
      ring
    · intro hnone
      simp [costRateOf, hnone]

/-- Helper: updating one model's counters leaves every other model's
recorded usage unchanged. -/
theorem lookupUsage_updateEntries_ne (model m : String) (p c : Nat)
    (h : m ≠ model) : ∀ es : List (String × Usage),
    lookupUsage (updateEntries es model p c) m = lookupUsage es m := by
  intro es
  induction es with
  | nil => simp [updateEntries, lookupUsage, Ne.symm h]
  | cons ku rest ih =>
    obtain ⟨k, u⟩ := ku
    by_cases hk : k = model
    · subst hk
      simp [updateEntries, lookupUsage, Ne.symm h]
    · by_cases hkm : k = m
      · subst hkm
        simp [updateEntries, lookupUsage, hk]
      · simp [updateEntries, lookupUsage, hk, hkm, ih]

/-- Helper: updating a model's counters adds the increments to its recorded
usage (starting from zero when the model was absent). -/
theorem lookupUsage_updateEntries_self (model : String) (p c : Nat) :
    ∀ es : List (String × Usage),
    (lookupUsage (updateEntries es model p c) model).getD ⟨0, 0⟩ =
      ⟨((lookupUsage es model).getD ⟨0, 0⟩).prompt_tokens + p,
       ((lookupUsage es model).getD ⟨0, 0⟩).completion_tokens + c⟩ := by
  intro es
  induction es with
  | nil => simp [updateEntries, lookupUsage]
  | cons ku rest ih =>
    obtain ⟨k, u⟩ := ku
    by_cases hk : k = model
    · subst hk
      simp [updateEntries, lookupUsage]
    · simp [updateEntries, lookupUsage, hk, ih]

/-- Helper: both effective per-token rates are nonnegative for every model,
known or unknown. -/
theorem costRateOf_nonneg (m : String) :
    0 ≤ (costRateOf m).prompt_token_cost ∧
    0 ≤ (costRateOf m).completion_token_cost := by
  unfold costRateOf COST_RATES
  split_ifs <;> norm_num

/-- C7: one call to `update_tokens_usage` leaves every per-model prompt
total, every per-model completion total, and the overall cost greater than
or equal to its value before the call. -/
theorem update_tokens_usage_monotone (doc : UsageDoc) (model : String)
    (p c : Nat) (m : String) :
    promptTotal doc m ≤ promptTotal (update_tokens_usage doc model p c) m ∧
    completionTotal doc m ≤
      completionTotal (update_tokens_usage doc model p c) m ∧
    doc.overall_cost ≤ (update_tokens_usage doc model p c).overall_cost := by
  refine ⟨?_, ?_, ?_⟩
  · by_cases hm : m = model
    · subst hm
      simp [promptTotal, update_tokens_usage,
        lookupUsage_updateEntries_self]
    · simp [promptTotal, update_tokens_usage,
        lookupUsage_updateEntries_ne model m p c hm]
  · by_cases hm : m = model
    · subst hm
      simp [completionTotal, update_tokens_usage,
        lookupUsage_updateEntries_self]
    · simp [completionTotal, update_tokens_usage,
        lookupUsage_updateEntries_ne model m p c hm]
  · obtain ⟨h1, h2⟩ := costRateOf_nonneg model
    have hp : 0 ≤ (p : ℚ) * (costRateOf model).prompt_token_cost :=
      mul_nonneg (Nat.cast_nonneg p) h1
    have hc : 0 ≤ (c : ℚ) * (costRateOf model).completion_token_cost :=
      mul_nonneg (Nat.cast_nonneg c) h2
    simp only [update_tokens_usage]
    linarith

/-! ## llm_services/llm_interface.py -/

/-- Errors that `LLMService.__init__` can raise: the two `ValueError`s of the
shared parameter validation, or whatever the provider-specific
`initialize_client` raises (missing credentials, unavailable model). -/
inductive InitError where
  | configError (msg : String)
  | clientError (msg : String)
deriving DecidableEq, Repr

/-- Embeds `LLMService.__init__(model_name, temperature, max_tokens)`: the
shared constructor validates `temperature` and `max_tokens` first, and only
afterwards calls the provider-specific `initialize_client` (its outcome is
passed in as `clientInit`; every concrete provider reaches this code through
`super().__init__`).  The returned Bool records whether `initialize_client`
was invoked. -/
def llmServiceInit (temperature : ℚ) (max_tokens : Int)
    (clientInit : Except String Unit) : Except InitError Unit × Bool :=
  if temperature < 0 ∨ 2 < temperature then
    (.error (.configError "Temperature must be between 0 and 2."), false)
  else if max_tokens < 1 then
    (.error (.configError "Max tokens must be greater than 0."), false)
  else
    match clientInit with
    | .error e => (.error (.clientError e), true)
    | .ok _ => (.ok (), true)

/-- C8: for every provider (arbitrary `clientInit` outcome), constructing a
service with a temperature outside [0,2] or `max_tokens < 1` fails with a
configuration error before any client initialization or network call is
performed. -/
theorem llmServiceInit_invalid_params (temperature : ℚ) (max_tokens : Int)
    (clientInit : Except String Unit)
    (h : temperature < 0 ∨ 2 < temperature ∨ max_tokens < 1) :
    ∃ msg, llmServiceInit temperature max_tokens clientInit
      = (.error (.configError msg), false) := by
  unfold llmServiceInit
  rcases h with h | h | h
  · rw [if_pos (Or.inl h)]
    exact ⟨_, rfl⟩
  · rw [if_pos (Or.inr h)]
    exact ⟨_, rfl⟩
  · by_cases ht : temperature < 0 ∨ 2 < temperature
    · rw [if_pos ht]
      exact ⟨_, rfl⟩
    · rw [if_neg ht, if_pos h]
      exact ⟨_, rfl⟩

/-- Witness for C8 at temperature 3 (outside [0,2]) with a succeeding client
initialization on offer. -/
theorem llmServiceInit_invalid_params_witness :
    ∃ msg, llmServiceInit 3 4096 (.ok ())
      = (.error (.configError msg), false) :=
  llmServiceInit_invalid_params 3 4096 (.ok ())
    (Or.inr (Or.inl (by norm_num)))

/-! ## make_request_image (azure_openai_service.py / huggingface_service.py) -/

/-- The static vision allow-list of `AzureOpenAIService.make_request_image`. -/
def azureVisionModels : List String := ["gpt-4o", "gpt-4o-mini", "gpt-4-turbo"]

/-- Embeds `AzureOpenAIService.make_request_image`: the allow-list check runs
before the image is encoded and before any request is sent; on a
vision-capable model the remote call (outcome per attempt passed as `api`)
runs under `retry_request`.  The second component counts how many times the
network call was invoked. -/
def azure_make_request_image (model_name : String)
    (api : Nat → Except String String) :
    Except String (RetryResult String String) × Nat :=
  if ¬(model_name ∈ azureVisionModels) then
    (.error "Use a model with vision capabilities for image requests. The following models support images: gpt-4o, gpt-4o-mini, gpt-4-turbo.", 0)
  else
    let p := retry_request api
    (.ok p.1, p.2)

/-- Embeds `HuggingFaceService.make_request_image`: raises
`NotImplementedError` unconditionally, before anything else. -/
def hf_make_request_image (_api : Nat → Except String String) :
    Except String (RetryResult String String) × Nat :=
  (.error "Method `make_request_image` is not implemented for HuggingFace models.", 0)

/-- C9: calling `make_request_image` on the Azure OpenAI provider with a
model outside the vision allow-list, or on the HuggingFace provider with any
model, raises a capability error with zero network invocations. -/
theorem make_request_image_unsupported (model_name : String)
    (azureApi hfApi : Nat → Except String String)
    (h : ¬(model_name ∈ azureVisionModels)) :
    (∃ msg, azure_make_request_image model_name azureApi = (.error msg, 0)) ∧
    (∃ msg, hf_make_request_image hfApi = (.error msg, 0)) := by
  have ha : azure_make_request_image model_name azureApi =
      (.error "Use a model with vision capabilities for image requests. The following models support images: gpt-4o, gpt-4o-mini, gpt-4-turbo.", 0) := by
    simp [azure_make_request_image, h]
  exact ⟨⟨_, ha⟩, ⟨_, rfl⟩⟩

/-- Witness for C9 at a non-vision model name. -/
theorem make_request_image_unsupported_witness :
    (∃ msg, azure_make_request_image "gpt-35-turbo"
        (fun _ => .ok "image description") = (.error msg, 0)) ∧
    (∃ msg, hf_make_request_image
        (fun _ => .ok "image description") = (.error msg, 0)) :=
  make_request_image_unsupported "gpt-35-turbo" _ _ (by decide)

/-! ## make_request_json (azure_openai_service.py) -/

/-- Does a character list start with the given pattern? -/
def startsWithChars : List Char → List Char → Bool
  | _, [] => true
  | [], _ :: _ => false
  | c :: s, p :: ps => (c == p) && startsWithChars s ps

/-- Does a character list contain the given pattern as a contiguous
substring? -/
def containsSub : List Char → List Char → Bool
  | s, [] => (fun _ => true) s
  | [], _ :: _ => false
  | c :: s, p :: ps =>
    startsWithChars (c :: s) (p :: ps) || containsSub s (p :: ps)

/-- Python's `pat in s` substring test on strings. -/
def strContains (s pat : String) : Bool := containsSub s.toList pat.toList

/-- Python truthiness of a string: non-empty strings are truthy. -/
def pyStrTruthy (s : String) : Bool := s != ""

/-- Embeds the condition guarding the JSON-instruction append in
`AzureOpenAIService.make_request_json`, namely
`not ("JSON" or "json" in messages[0].content)`.  Python's `or` yields its
first operand when that operand is truthy; the membership test binds tighter
than `or`, so the negated expression is the literal `"JSON"` whenever that
literal is truthy (it always is), regardless of the message content. -/
def azureJsonAppendCondition (content : String) : Bool :=
  !(if pyStrTruthy "JSON" then pyStrTruthy "JSON"
    else strContains content "json")

/-- Embeds the first-message mutation of
`AzureOpenAIService.make_request_json`: the instruction is appended exactly
when `azureJsonAppendCondition` holds. -/
def azure_json_first_message (content : String) : String :=
  if azureJsonAppendCondition content then
    content ++ " Your task is to return the response in JSON format."
  else content

/-- Modelled from the spec (the intended behavior the claim states, absent
from the code): append the JSON instruction exactly when neither "json" nor
"JSON" occurs in the first message's content. -/
def spec_json_first_message (content : String) : String :=
  if !(strContains content "json") && !(strContains content "JSON") then
    content ++ " Your task is to return the response in JSON format."
  else content

/-- C2 (code bug): the code never appends the JSON instruction — the
condition `not ("JSON" or "json" in content)` is constant false because the
truthy literal `"JSON"` short-circuits the `or` — whereas the claimed
(intended) behavior appends it to any first message containing neither
"json" nor "JSON", such as "You are a helpful assistant.". -/
theorem azure_json_instruction_never_appended :
    (∀ content, azure_json_first_message content = content) ∧
    azure_json_first_message "You are a helpful assistant."
      = "You are a helpful assistant." ∧
    strContains "You are a helpful assistant." "json" = false ∧
    strContains "You are a helpful assistant." "JSON" = false ∧
    spec_json_first_message "You are a helpful assistant."
      = "You are a helpful assistant. Your task is to return the response in JSON format." := by
  refine ⟨fun content => rfl, rfl, ?_, ?_, ?_⟩ <;> decide

/-! ## make_request_with_tools (azure_openai_service.py /
huggingface_service.py) -/

/-- Value returned by `make_request_with_tools`: either the message's text
content or its (possibly absent) tool-call list. -/
inductive ToolResponse (τ : Type) where
  | text : String → ToolResponse τ
  | toolCalls : Option (List τ) → ToolResponse τ
deriving DecidableEq, Repr

/-- Python truthiness of `response.choices[0].message.tool_calls`: `None`
and the empty list are falsy. -/
def pyToolCallsFalsy : Option (List τ) → Bool
  | none => true
  | some l => l.isEmpty

/-- Embeds the response-shape selection of
`AzureOpenAIService.make_request_with_tools`. -/
def azureToolResponse (return_only_tool_response : Bool) (content : String)
    (tool_calls : Option (List τ)) : ToolResponse τ :=
  if return_only_tool_response then .toolCalls tool_calls
  else if pyToolCallsFalsy tool_calls then .text content
  else .toolCalls tool_calls

/-- Embeds the response-shape selection of
`HuggingFaceService.make_request_with_tools`, including its duplicated
nested no-tool-calls branch. -/
def hfToolResponse (return_only_tool_response : Bool) (content : String)
    (tool_calls : Option (List τ)) : ToolResponse τ :=
  if return_only_tool_response then .toolCalls tool_calls
  else if pyToolCallsFalsy tool_calls then .text content
  else if pyToolCallsFalsy tool_calls then .text content
  else .toolCalls tool_calls

/-- C3: with `return_only_tool_response = true` the tool-call list (possibly
empty or `None`) is returned regardless of content; otherwise text content is
returned when there are no tool calls and the tool-call list when there is at
least one; and the HuggingFace implementation with its duplicated branch is
behaviorally identical to the Azure one. -/
theorem make_request_with_tools_response_shape (τ : Type)
    (return_only_tool_response : Bool) (content : String)
    (tool_calls : Option (List τ)) :
    hfToolResponse return_only_tool_response content tool_calls =
      azureToolResponse return_only_tool_response content tool_calls ∧
    azureToolResponse true content tool_calls = .toolCalls tool_calls ∧
    (pyToolCallsFalsy tool_calls = true →
      azureToolResponse false content tool_calls = .text content) ∧
    (pyToolCallsFalsy tool_calls = false →
      azureToolResponse false content tool_calls
        = .toolCalls tool_calls) := by
  refine ⟨?_, rfl, ?_, ?_⟩
  · unfold hfToolResponse azureToolResponse
    cases hb : pyToolCallsFalsy tool_calls <;> simp [hb]
  · intro hb
    simp [azureToolResponse, hb]
  · intro hb
    simp [azureToolResponse, hb]

/-- Witness for C3 at a concrete one-element tool-call list, discharging the
at-least-one-tool-call hypothesis. -/
theorem make_request_with_tools_response_shape_witness :
    hfToolResponse false "hello" (some [(1 : Nat)]) =
      azureToolResponse false "hello" (some [(1 : Nat)]) ∧
    azureToolResponse false "hello" (some [(1 : Nat)])
      = .toolCalls (some [(1 : Nat)]) :=
  ⟨(make_request_with_tools_response_shape Nat false "hello" (some [1])).1,
   (make_request_with_tools_response_shape Nat false "hello"
      (some [1])).2.2.2 rfl⟩

/-! ## LLMServiceFactory.py -/

/-- Cache key of the factory registry:
`(model_name, provider, temperature, max_tokens)`. -/
abbrev ServiceKey := String × String × ℚ × Int

/-- One constructed service instance.  The `id` field models Python object
identity: ids are issued from the factory's allocation counter, so two
returned instances are the same object (reference equality) exactly when
they are equal here. -/
structure ServiceInst where
  id : Nat
  model_name : String
  provider : String
  temperature : ℚ
  max_tokens : Int
deriving DecidableEq, Repr

/-- The factory's class-level `_services` registry, together with the
counter modelling object allocation. -/
structure FactoryState where
  services : List (ServiceKey × ServiceInst)
  nextId : Nat
deriving DecidableEq, Repr

/-- Errors `get_service` can raise: a construction failure propagated from
`LLMService.__init__`, or the factory's own unsupported-provider
`ValueError`. -/
inductive FactoryError where
  | initError (e : InitError)
  | unsupportedProvider (msg : String)
deriving DecidableEq, Repr

/-- Dictionary lookup in the registry (`key in cls._services` /
`cls._services[key]`). -/
def findService : List (ServiceKey × ServiceInst) → ServiceKey →
    Option ServiceInst
  | [], _ => none
  | (k, svc) :: rest, key => if k = key then some svc else findService rest key

/-- Embeds `LLMServiceFactory.get_service`.  The provider-specific
`initialize_client` outcome (dependent on environment variables and remote
model availability) is supplied as `clientInit`, keyed by provider name;
construction of a new instance runs the shared `llmServiceInit` validation.
Returns the service, the registry state afterwards, and whether this call
constructed (and hence validated) a new instance. -/
def get_service (clientInit : String → Except String Unit)
    (st : FactoryState) (model_name provider : String)
    (temperature : ℚ) (max_tokens : Int) :
    Except FactoryError (ServiceInst × FactoryState × Bool) :=
  match findService st.services (model_name, provider, temperature, max_tokens) with
  | some svc => .ok (svc, st, false)
  | none =>
    if provider = "AzureOpenAI" ∨ provider = "HuggingFace" ∨
        provider = "OpenAI" then
      match (llmServiceInit temperature max_tokens (clientInit provider)).1 with
      | .error e => .error (.initError e)
      | .ok _ =>
        .ok (⟨st.nextId, model_name, provider, temperature, max_tokens⟩,
          ⟨st.services ++ [((model_name, provider, temperature, max_tokens),
            ⟨st.nextId, model_name, provider, temperature, max_tokens⟩)],
            st.nextId + 1⟩,
          true)
    else
      .error (.unsupportedProvider ("Unsupported provider: " ++ provider ++
        ". Supported providers: AzureOpenAI, HuggingFace and OpenAI."))

/-- Helper: a key absent from the registry is found after being inserted at
the back. -/
theorem findService_append (l : List (ServiceKey × ServiceInst))
    (key : ServiceKey) (svc : ServiceInst)
    (h : findService l key = none) :
    findService (l ++ [(key, svc)]) key = some svc := by
  induction l with
  | nil => simp [findService]
  | cons kv rest ih =>
    obtain ⟨k, s⟩ := kv
    by_cases hk : k = key
    · simp [findService, hk] at h
    · simp only [findService, List.cons_append, if_neg hk] at h ⊢
      exact ih h

/-- C1: a repeated `get_service` call with argument values identical to a
call that returned successfully yields the identical cached instance,
leaves the registry unchanged, and constructs nothing (no re-validation, no
parameter update). -/
theorem get_service_memoizes (clientInit : String → Except String Unit)
    (st : FactoryState) (model_name provider : String)
    (temperature : ℚ) (max_tokens : Int) (svc : ServiceInst)
    (st1 : FactoryState) (constructed : Bool)
    (h : get_service clientInit st model_name provider temperature max_tokens
        = .ok (svc, st1, constructed)) :
    get_service clientInit st1 model_name provider temperature max_tokens
      = .ok (svc, st1, false) := by
  unfold get_service at h ⊢
  cases hfind : findService st.services
      (model_name, provider, temperature, max_tokens) with
  | some s =>
    rw [hfind] at h
    simp only [Except.ok.injEq, Prod.mk.injEq] at h
    obtain ⟨h1, h2, _⟩ := h
    subst h1
    subst h2
    rw [hfind]
  | none =>
    rw [hfind] at h
    by_cases hp : provider = "AzureOpenAI" ∨ provider = "HuggingFace" ∨
        provider = "OpenAI"
    · rw [if_pos hp] at h
      cases hinit :
          (llmServiceInit temperature max_tokens (clientInit provider)).1 with
      | error e =>
        rw [hinit] at h
        exact absurd h (by simp)
      | ok u =>
        rw [hinit] at h
        simp only [Except.ok.injEq, Prod.mk.injEq] at h
        obtain ⟨h1, h2, _⟩ := h
        subst h1
        subst h2
        rw [findService_append _ _ _ hfind]
    · rw [if_neg hp] at h
      exact absurd h (by simp)

/-- Witness for C1: an Azure service requested twice with identical values
on an initially empty registry. -/
theorem get_service_memoizes_witness :
    get_service (fun _ => .ok ())
      ⟨[(("gpt-4o", "AzureOpenAI", (1 : ℚ), (4096 : Int)),
          ⟨0, "gpt-4o", "AzureOpenAI", 1, 4096⟩)], 1⟩
      "gpt-4o" "AzureOpenAI" 1 4096
      = .ok (⟨0, "gpt-4o", "AzureOpenAI", 1, 4096⟩,
          ⟨[(("gpt-4o", "AzureOpenAI", (1 : ℚ), (4096 : Int)),
              ⟨0, "gpt-4o", "AzureOpenAI", 1, 4096⟩)], 1⟩, false) :=
  get_service_memoizes (fun _ => .ok ()) ⟨[], 0⟩ "gpt-4o" "AzureOpenAI"
    1 4096 ⟨0, "gpt-4o", "AzureOpenAI", 1, 4096⟩
    ⟨[(("gpt-4o", "AzureOpenAI", (1 : ℚ), (4096 : Int)),
        ⟨0, "gpt-4o", "AzureOpenAI", 1, 4096⟩)], 1⟩
    true rfl
